import Mathlib

/-!
Verification of the smooth-bevy-cameras camera-control core: the shared
pose state (LookTransform), the yaw/pitch representation (LookAngles), the
per-style control-event reducers (first-person fps_3d and orbit), the
default input mappers, and the input-gating flag from controllers.rs.

Vectors of the host math library (bevy/glam) are embedded componentwise
over the reals; f32 arithmetic is modelled by real arithmetic. LookAngles
and LookTransform live in the library root of the repository, outside the
provided controller sources, and are modelled from the specification; the
control systems and input maps are translated directly from
src/controllers/fps_3d.rs, src/controllers/orbit.rs and
src/controllers.rs.
-/

namespace SmoothBevyCameras

noncomputable section

/-- Host math library 2D vector (glam Vec2), components as reals. -/
structure Vec2 where
  x : ℝ
  y : ℝ

/-- Host math library 3D vector (glam Vec3), components as reals. -/
structure Vec3 where
  x : ℝ
  y : ℝ
  z : ℝ

instance : Add Vec2 := ⟨fun a b => ⟨a.x + b.x, a.y + b.y⟩⟩

/-- glam multiplies Vec2 by Vec2 componentwise (used for sensitivity scaling). -/
instance : Mul Vec2 := ⟨fun a b => ⟨a.x * b.x, a.y * b.y⟩⟩

instance : Add Vec3 := ⟨fun a b => ⟨a.x + b.x, a.y + b.y, a.z + b.z⟩⟩

instance : Sub Vec3 := ⟨fun a b => ⟨a.x - b.x, a.y - b.y, a.z - b.z⟩⟩

instance : Neg Vec3 := ⟨fun a => ⟨-a.x, -a.y, -a.z⟩⟩

/-- Scalar-times-vector, as f32 * Vec3 in glam. -/
instance : HMul ℝ Vec3 Vec3 := ⟨fun r v => ⟨r * v.x, r * v.y, r * v.z⟩⟩

/-- Scalar-times-vector for Vec2, as f32 * Vec2 in glam. -/
instance : HMul ℝ Vec2 Vec2 := ⟨fun r v => ⟨r * v.x, r * v.y⟩⟩

/-- glam Vec3::X. -/
def Vec3.X : Vec3 := ⟨1, 0, 0⟩

/-- glam Vec3::Y. -/
def Vec3.Y : Vec3 := ⟨0, 1, 0⟩

/-- Euclidean length of a Vec3 (glam length). -/
def Vec3.norm (v : Vec3) : ℝ := Real.sqrt (v.x ^ 2 + v.y ^ 2 + v.z ^ 2)

/-- Normalization v / |v| (glam normalize, defined on nonzero input). -/
def Vec3.normalize (v : Vec3) : Vec3 := (1 / v.norm) * v

/-- glam cross product. -/
def Vec3.cross (a b : Vec3) : Vec3 :=
  ⟨a.y * b.z - a.z * b.y, a.z * b.x - a.x * b.z, a.x * b.y - a.y * b.x⟩

/-- Modelled from the spec: the LookAngles value type of the library root
(not among the provided controller sources). Yaw and pitch in radians. -/
structure LookAngles where
  yaw : ℝ
  pitch : ℝ

/-- Modelled from the spec: the small epsilon margin that keeps pitch
strictly inside the open interval (-π/2, π/2). -/
def pitchMargin : ℝ := 1 / 100000

/-- Truncation toward zero, the rounding of the Rust % remainder. -/
def realTrunc (x : ℝ) : ℝ := if 0 ≤ x then (⌊x⌋ : ℤ) else (⌈x⌉ : ℤ)

/-- Rust f32 remainder on reals: x - y * trunc(x / y). -/
def realRem (x y : ℝ) : ℝ := x - y * realTrunc (x / y)

open Classical in
/-- Quadrant-correct arctangent, the f32 atan2 of the Rust standard library
on reals. -/
def atan2 (y x : ℝ) : ℝ :=
  if 0 < x then Real.arctan (y / x)
  else if x < 0 then
    (if 0 ≤ y then Real.arctan (y / x) + Real.pi else Real.arctan (y / x) - Real.pi)
  else
    (if 0 < y then Real.pi / 2 else if y < 0 then -(Real.pi / 2) else 0)

/-- Modelled from the spec: yaw = atan2 over the horizontal-plane components
of v, pitch = asin of the vertical component of normalized v. -/
def LookAngles.from_vector (v : Vec3) : LookAngles :=
  ⟨atan2 v.x v.z, Real.arcsin (Vec3.normalize v).y⟩

/-- Modelled from the spec: conversion back to a unit look-direction by
yaw/pitch composition, the inverse of from_vector. -/
def LookAngles.unit_vector (a : LookAngles) : Vec3 :=
  ⟨Real.cos a.pitch * Real.sin a.yaw, Real.sin a.pitch, Real.cos a.pitch * Real.cos a.yaw⟩

/-- Modelled from the spec: add_yaw accumulates, with yaw wrapped to a
canonical range (Rust remainder by 2π). -/
def LookAngles.add_yaw (a : LookAngles) (delta : ℝ) : LookAngles :=
  { a with yaw := realRem (a.yaw + delta) (2 * Real.pi) }

/-- Modelled from the spec: add_pitch accumulates and clamps the result to a
closed interval strictly inside (-π/2, π/2) by a small epsilon margin. -/
def LookAngles.add_pitch (a : LookAngles) (delta : ℝ) : LookAngles :=
  { a with
    pitch := max (-(Real.pi / 2) + pitchMargin) (min (Real.pi / 2 - pitchMargin) (a.pitch + delta)) }

/-- Modelled from the spec: the contract checked by assert_not_looking_up
after all pitch deltas of a tick have been applied (a fatal assertion in
the source, not a recoverable error), stated as the asserted proposition. -/
def LookAngles.assert_not_looking_up (a : LookAngles) : Prop :=
  |a.pitch| < Real.pi / 2

/-- Modelled from the spec: the LookTransform pose entity of the library
root, eye and target positions. -/
structure LookTransform where
  eye : Vec3
  target : Vec3

/-- Modelled from the spec: derived look-direction normalize(target - eye). -/
def LookTransform.look_direction (t : LookTransform) : Vec3 :=
  Vec3.normalize (t.target - t.eye)

/-- Modelled from the spec: derived radius, the eye-to-target distance. -/
def LookTransform.radius (t : LookTransform) : ℝ :=
  Vec3.norm (t.target - t.eye)

/-- Host keyboard state read by the default input maps: the pressed flags
of the keys the maps consult (bevy Input of KeyCode, external). -/
structure Keyboard where
  w : Bool
  a : Bool
  s : Bool
  d : Bool
  lcontrol : Bool

/-- Host mouse-button state read by the orbit input map (bevy Input of
MouseButton, external). -/
structure MouseButtons where
  right : Bool

/-- The accumulated cursor delta of a tick (fps_3d.rs lines 116-119 and
orbit.rs lines 118-121): the running sum over all mouse-motion samples. -/
def cursorDelta (mouse_motion_events : List Vec2) : Vec2 :=
  mouse_motion_events.foldl (· + ·) ⟨0, 0⟩

/-- The sum of the deltas of all raw mouse-motion samples of a tick, as the
claim words it. -/
def deltaSum : List Vec2 → Vec2
  | [] => ⟨0, 0⟩
  | delta :: rest => delta + deltaSum rest

namespace Fps3d

/-- First-person controller configuration (fps_3d.rs lines 68-74). -/
structure Fps3dCameraController where
  enabled : Bool
  mouse_rotate_sensitivity : Vec2
  translate_sensitivity : ℝ
  smoothing_weight : ℝ

/-- Control events of the first-person style (fps_3d.rs lines 87-90). -/
inductive ControlEvent where
  | Rotate (delta : Vec2)
  | TranslateEye (delta : Vec3)

/-- Whether a first-person control event is a Rotate event. -/
def ControlEvent.isRotate : ControlEvent → Bool
  | .Rotate _ => true
  | .TranslateEye _ => false

/-- One iteration of the event loop of control_system (fps_3d.rs lines
158-170), acting on the mutable pair of the eye position and the look
angles; the target is not touched inside the loop. -/
def applyEvent : Vec3 × LookAngles → ControlEvent → Vec3 × LookAngles
  | (eye, look_angles), .Rotate delta =>
      (eye, (look_angles.add_yaw (-delta.x)).add_pitch (-delta.y))
  | (eye, look_angles), .TranslateEye delta => (eye + delta, look_angles)

/-- The body of control_system (fps_3d.rs lines 154-177) for the one
controlled camera: when enabled, derive the look angles from the current
look-direction, fold the events, and recompute the target from the radius
read at recompute time (the source asserts assert_not_looking_up just
before the recompute); when disabled, drop the events and keep the pose. -/
def reduce (controller : Fps3dCameraController) (events : List ControlEvent)
    (transform : LookTransform) : LookTransform :=
  if controller.enabled then
    let s := events.foldl applyEvent
      (transform.eye, LookAngles.from_vector transform.look_direction)
    { eye := s.1,
      target := s.1 + LookTransform.radius ⟨s.1, transform.target⟩ * s.2.unit_vector }
  else
    transform

/-- control_system (fps_3d.rs lines 142-178): the query iteration controls
only the first camera found and returns without touching the rest. -/
def control_system (events : List ControlEvent)
    (cameras : List (Fps3dCameraController × LookTransform)) :
    List (Fps3dCameraController × LookTransform) :=
  match cameras with
  | [] => []
  | (controller, transform) :: rest =>
      (controller, reduce controller events transform) :: rest

/-- The final eye position as the claim words it: every TranslateEye delta
is added directly to the eye, Rotate events leave the eye alone. -/
def claimEye (eye : Vec3) : List ControlEvent → Vec3
  | [] => eye
  | .Rotate _ :: rest => claimEye eye rest
  | .TranslateEye delta :: rest => claimEye (eye + delta) rest

/-- The final look angles as the claim words them: every Rotate delta
applies add_yaw (-delta.x) and add_pitch (-delta.y) in order, TranslateEye
events leave the angles alone. -/
def claimAngles (look_angles : LookAngles) : List ControlEvent → LookAngles
  | [] => look_angles
  | .Rotate delta :: rest =>
      claimAngles ((look_angles.add_yaw (-delta.x)).add_pitch (-delta.y)) rest
  | .TranslateEye _ :: rest => claimAngles look_angles rest

/-- default_input_map (fps_3d.rs lines 92-140): reads the first controller
and pose of the query; when enabled, sends one Rotate event carrying the
rotate sensitivity times the accumulated cursor delta, then one
TranslateEye event per pressed movement key along the look-vector basis. -/
def default_input_map (keyboard : Keyboard) (mouse_motion_events : List Vec2)
    (cameras : List (Fps3dCameraController × LookTransform)) : List ControlEvent :=
  match cameras with
  | [] => []
  | (controller, transform) :: _ =>
    if controller.enabled then
      let cursor_delta := cursorDelta mouse_motion_events
      let look_vector := transform.look_direction
      ControlEvent.Rotate (controller.mouse_rotate_sensitivity * cursor_delta) ::
        ([(keyboard.w, look_vector),
          (keyboard.a, -(Vec3.cross look_vector Vec3.Y)),
          (keyboard.s, -look_vector),
          (keyboard.d, Vec3.cross look_vector Vec3.Y)].filterMap
          fun p =>
            if p.1 then
              some (ControlEvent.TranslateEye (controller.translate_sensitivity * p.2))
            else none)
    else []

end Fps3d

namespace Orbit

/-- Orbit controller configuration (orbit.rs lines 63-70). -/
structure OrbitCameraController where
  enabled : Bool
  mouse_rotate_sensitivity : Vec2
  mouse_translate_sensitivity : Vec2
  mouse_wheel_zoom_sensitivity : ℝ
  smoothing_weight : ℝ

/-- Control events of the orbit style (orbit.rs lines 84-88). -/
inductive ControlEvent where
  | Orbit (delta : Vec2)
  | TranslateTarget (delta : Vec2)
  | Zoom (scalar : ℝ)

/-- Whether an orbit control event is a Zoom event. -/
def ControlEvent.isZoom : ControlEvent → Bool
  | .Zoom _ => true
  | _ => false

/-- The host scene transform component read by the orbit reducer (bevy
Transform, an external collaborator): only its rotation, embedded as the
map it applies to vectors, is consumed. -/
structure Transform where
  rotation : Vec3 → Vec3

/-- The right basis direction the reducer reads from the scene transform
(orbit.rs line 163): rotation applied to -Vec3::X. -/
def right_dir (scene_transform : Transform) : Vec3 :=
  scene_transform.rotation (-Vec3.X)

/-- The up basis direction the reducer reads from the scene transform
(orbit.rs line 164): rotation applied to Vec3::Y. -/
def up_dir (scene_transform : Transform) : Vec3 :=
  scene_transform.rotation Vec3.Y

/-- Mutable state of the event loop of the orbit control_system: the pose,
the look angles and the accumulating radius scalar. -/
structure ReduceState where
  transform : LookTransform
  look_angles : LookAngles
  radius_scalar : ℝ

/-- One iteration of the event loop of control_system (orbit.rs lines
156-171): Orbit turns the angles, TranslateTarget moves the target along
the scene basis, Zoom multiplies the radius scalar. -/
def applyEvent (scene_transform : Transform) (s : ReduceState) :
    ControlEvent → ReduceState
  | .Orbit delta =>
      { s with look_angles := (s.look_angles.add_yaw (-delta.x)).add_pitch delta.y }
  | .TranslateTarget delta =>
      { s with transform :=
          { s.transform with target :=
              s.transform.target + delta.x * right_dir scene_transform
                + delta.y * up_dir scene_transform } }
  | .Zoom scalar => { s with radius_scalar := s.radius_scalar * scalar }

/-- The body of control_system (orbit.rs lines 152-179) for the one
controlled camera: when enabled, derive the look angles from the negated
look-direction, fold the events from radius scalar 1, and recompute the
eye from the radius read at recompute time (the source asserts
assert_not_looking_up just before the recompute); when disabled, drop the
events and keep the pose. -/
def reduce (scene_transform : Transform) (controller : OrbitCameraController)
    (events : List ControlEvent) (transform : LookTransform) : LookTransform :=
  if controller.enabled then
    let s := events.foldl (applyEvent scene_transform)
      ⟨transform, LookAngles.from_vector (-transform.look_direction), 1⟩
    { eye := s.transform.target
        + s.radius_scalar * s.transform.radius * s.look_angles.unit_vector,
      target := s.transform.target }
  else
    transform

/-- control_system (orbit.rs lines 140-180): the query iteration controls
only the first camera found and returns without touching the rest. -/
def control_system (events : List ControlEvent)
    (cameras : List (OrbitCameraController × LookTransform × Transform)) :
    List (OrbitCameraController × LookTransform × Transform) :=
  match cameras with
  | [] => []
  | (controller, transform, scene_transform) :: rest =>
      (controller, reduce scene_transform controller events transform, scene_transform) :: rest

/-- The final target as the claim words it: every TranslateTarget delta
moves the target along the scene basis, other events leave it alone. -/
def claimTarget (scene_transform : Transform) (target : Vec3) :
    List ControlEvent → Vec3
  | [] => target
  | .TranslateTarget delta :: rest =>
      claimTarget scene_transform
        (target + delta.x * right_dir scene_transform + delta.y * up_dir scene_transform) rest
  | .Orbit _ :: rest => claimTarget scene_transform target rest
  | .Zoom _ :: rest => claimTarget scene_transform target rest

/-- The final look angles as the claim words them: every Orbit delta
applies add_yaw (-delta.x) and add_pitch (+delta.y) in order. -/
def claimOrbitAngles (look_angles : LookAngles) : List ControlEvent → LookAngles
  | [] => look_angles
  | .Orbit delta :: rest =>
      claimOrbitAngles ((look_angles.add_yaw (-delta.x)).add_pitch delta.y) rest
  | .TranslateTarget _ :: rest => claimOrbitAngles look_angles rest
  | .Zoom _ :: rest => claimOrbitAngles look_angles rest

/-- The accumulated radius scalar as the claim words it: the product of
the Zoom factors of the tick. -/
def zoomProduct : List ControlEvent → ℝ
  | [] => 1
  | .Zoom scalar :: rest => scalar * zoomProduct rest
  | .Orbit _ :: rest => zoomProduct rest
  | .TranslateTarget _ :: rest => zoomProduct rest

/-- default_input_map (orbit.rs lines 92-138): reads the first controller
of the query; when enabled, sends an Orbit event while left-control is
pressed and a TranslateTarget event while the right mouse button is
pressed, both carrying their sensitivity times the accumulated cursor
delta, and always one final Zoom event whose scalar multiplies up the
wheel samples. -/
def default_input_map (keyboard : Keyboard) (mouse_buttons : MouseButtons)
    (mouse_wheel_events : List ℝ) (mouse_motion_events : List Vec2)
    (controllers : List OrbitCameraController) : List ControlEvent :=
  match controllers with
  | [] => []
  | controller :: _ =>
    if controller.enabled then
      let cursor_delta := cursorDelta mouse_motion_events
      (if keyboard.lcontrol then
          [ControlEvent.Orbit (controller.mouse_rotate_sensitivity * cursor_delta)]
        else [])
      ++ (if mouse_buttons.right then
          [ControlEvent.TranslateTarget
            (controller.mouse_translate_sensitivity * cursor_delta)]
        else [])
      ++ [ControlEvent.Zoom (mouse_wheel_events.foldl
          (fun scalar y => scalar * (1 + y * controller.mouse_wheel_zoom_sensitivity)) 1)]
    else []

end Orbit

/-- The input gating flag (controllers.rs lines 11-15). -/
inductive InputBehavior where
  | Enable
  | Disable
deriving DecidableEq

/-- set_default_input_behavior (controllers.rs lines 17-21): the startup
system inserts the resource value Enable. -/
def set_default_input_behavior : InputBehavior := InputBehavior.Enable

/-- Run-criteria answer (bevy ShouldRun, external). -/
inductive ShouldRun where
  | Yes
  | No
deriving DecidableEq

/-- should_consume_input (controllers.rs lines 23-33): answers No exactly
when the flag has been explicitly set to Disable. -/
def should_consume_input (consume : InputBehavior) : ShouldRun :=
  if InputBehavior.Disable = consume then ShouldRun.No else ShouldRun.Yes

/-- One scheduler tick of the interaction of this core with the gating
flag: the run criterion should_consume_input reads the flag and answers
whether the default input maps run; no per-tick system of the core writes
the flag (the only write in the core, set_default_input_behavior, is
registered as a startup system in OrbitCameraPlugin and runs once before
the first tick). -/
def input_behavior_tick (consume : InputBehavior) : InputBehavior × ShouldRun :=
  (consume, should_consume_input consume)

@[simp] theorem Vec2.add_eq (a b : Vec2) : a + b = ⟨a.x + b.x, a.y + b.y⟩ := rfl

@[simp] theorem Vec2.mul_def (a b : Vec2) : a * b = ⟨a.x * b.x, a.y * b.y⟩ := rfl

@[simp] theorem Vec2.smul_eq (r : ℝ) (v : Vec2) : r * v = ⟨r * v.x, r * v.y⟩ := rfl

@[simp] theorem Vec3.add_def (a b : Vec3) : a + b = ⟨a.x + b.x, a.y + b.y, a.z + b.z⟩ := rfl

@[simp] theorem Vec3.sub_def (a b : Vec3) : a - b = ⟨a.x - b.x, a.y - b.y, a.z - b.z⟩ := rfl

@[simp] theorem Vec3.neg_def (a : Vec3) : -a = ⟨-a.x, -a.y, -a.z⟩ := rfl

@[simp] theorem Vec3.smul_def (r : ℝ) (v : Vec3) : r * v = ⟨r * v.x, r * v.y, r * v.z⟩ := rfl

theorem Vec3.norm_nonneg (v : Vec3) : 0 ≤ v.norm := Real.sqrt_nonneg _

theorem Vec3.norm_smul (r : ℝ) (v : Vec3) : (r * v).norm = |r| * v.norm := by
  simp only [Vec3.smul_def, Vec3.norm]
  rw [show (r * v.x) ^ 2 + (r * v.y) ^ 2 + (r * v.z) ^ 2
        = r ^ 2 * (v.x ^ 2 + v.y ^ 2 + v.z ^ 2) by ring,
      Real.sqrt_mul (sq_nonneg r), Real.sqrt_sq_eq_abs]

theorem Vec3.add_sub_cancel_left (a b : Vec3) : (a + b) - a = b := by
  cases b with
  | mk x y z =>
    simp only [Vec3.add_def, Vec3.sub_def, Vec3.mk.injEq]
    exact ⟨by ring, by ring, by ring⟩

theorem Vec2.add_zero_vec (v : Vec2) : v + ⟨0, 0⟩ = v := by
  cases v with
  | mk x y => simp

theorem Vec2.zero_vec_add (v : Vec2) : (⟨0, 0⟩ : Vec2) + v = v := by
  cases v with
  | mk x y => simp

theorem Vec2.add_assoc_vec (u v w : Vec2) : u + v + w = u + (v + w) := by
  simp only [Vec2.add_eq, Vec2.mk.injEq]
  exact ⟨by ring, by ring⟩

/-- The look-direction of every LookAngles value is a unit vector. -/
theorem LookAngles.norm_unit_vector (a : LookAngles) : a.unit_vector.norm = 1 := by
  simp only [LookAngles.unit_vector, Vec3.norm]
  rw [show (Real.cos a.pitch * Real.sin a.yaw) ^ 2 + Real.sin a.pitch ^ 2
        + (Real.cos a.pitch * Real.cos a.yaw) ^ 2
      = Real.cos a.pitch ^ 2 * (Real.sin a.yaw ^ 2 + Real.cos a.yaw ^ 2)
        + Real.sin a.pitch ^ 2 by ring,
    Real.sin_sq_add_cos_sq, mul_one, Real.cos_sq_add_sin_sq, Real.sqrt_one]

theorem foldl_add_eq_deltaSum (init : Vec2) (mouse_motion_events : List Vec2) :
    mouse_motion_events.foldl (· + ·) init = init + deltaSum mouse_motion_events := by
  induction mouse_motion_events generalizing init with
  | nil =>
      simp only [List.foldl_nil, deltaSum]
      rw [Vec2.add_zero_vec]
  | cons delta rest ih =>
      simp only [List.foldl_cons, deltaSum]
      rw [ih, Vec2.add_assoc_vec]

/-- The accumulated cursor delta is the sum of all samples. -/
theorem cursorDelta_eq_deltaSum (mouse_motion_events : List Vec2) :
    cursorDelta mouse_motion_events = deltaSum mouse_motion_events := by
  simp only [cursorDelta]
  rw [foldl_add_eq_deltaSum, Vec2.zero_vec_add]

/-- The event loop of the first-person reducer splits into the independent
eye and angle accumulations. -/
theorem fps_foldl_applyEvent (events : List Fps3d.ControlEvent) (eye : Vec3)
    (look_angles : LookAngles) :
    events.foldl Fps3d.applyEvent (eye, look_angles)
      = (Fps3d.claimEye eye events, Fps3d.claimAngles look_angles events) := by
  induction events generalizing eye look_angles with
  | nil => rfl
  | cons e rest ih =>
    cases e with
    | Rotate delta => simp [Fps3d.applyEvent, Fps3d.claimEye, Fps3d.claimAngles, ih]
    | TranslateEye delta => simp [Fps3d.applyEvent, Fps3d.claimEye, Fps3d.claimAngles, ih]

/-- Closed form of the enabled branch of the first-person reducer. -/
theorem fps_reduce_enabled (controller : Fps3d.Fps3dCameraController)
    (events : List Fps3d.ControlEvent) (transform : LookTransform)
    (h : controller.enabled = true) :
    Fps3d.reduce controller events transform =
      { eye := Fps3d.claimEye transform.eye events,
        target := Fps3d.claimEye transform.eye events
          + Vec3.norm (transform.target - Fps3d.claimEye transform.eye events)
            * (Fps3d.claimAngles (LookAngles.from_vector transform.look_direction)
                events).unit_vector } := by
  simp [Fps3d.reduce, h, fps_foldl_applyEvent, LookTransform.radius]

/-- Rotations do not move the eye. -/
theorem fps_claimEye_of_all_rotate (events : List Fps3d.ControlEvent) (eye : Vec3)
    (h : events.all Fps3d.ControlEvent.isRotate = true) :
    Fps3d.claimEye eye events = eye := by
  induction events with
  | nil => rfl
  | cons e rest ih =>
    cases e with
    | Rotate delta =>
        simp only [List.all_cons, Bool.and_eq_true] at h
        simpa [Fps3d.claimEye] using ih h.2
    | TranslateEye delta => simp [List.all_cons, Fps3d.ControlEvent.isRotate] at h

/-- The event loop of the orbit reducer splits into the independent target,
angle and radius-scalar accumulations; the eye is never touched inside the
loop and the scalar accumulates multiplicatively. -/
theorem orbit_foldl_applyEvent (scene_transform : Orbit.Transform)
    (events : List Orbit.ControlEvent) (transform : LookTransform)
    (look_angles : LookAngles) (radius_scalar : ℝ) :
    events.foldl (Orbit.applyEvent scene_transform) ⟨transform, look_angles, radius_scalar⟩
      = ⟨⟨transform.eye, Orbit.claimTarget scene_transform transform.target events⟩,
          Orbit.claimOrbitAngles look_angles events,
          radius_scalar * Orbit.zoomProduct events⟩ := by
  induction events generalizing transform look_angles radius_scalar with
  | nil => simp [Orbit.claimTarget, Orbit.claimOrbitAngles, Orbit.zoomProduct]
  | cons e rest ih =>
    cases e with
    | Orbit delta =>
        simp [Orbit.applyEvent, Orbit.claimTarget, Orbit.claimOrbitAngles,
          Orbit.zoomProduct, ih]
    | TranslateTarget delta =>
        simp [Orbit.applyEvent, Orbit.claimTarget, Orbit.claimOrbitAngles,
          Orbit.zoomProduct, ih]
    | Zoom scalar =>
        simp [Orbit.applyEvent, Orbit.claimTarget, Orbit.claimOrbitAngles,
          Orbit.zoomProduct, ih, mul_assoc]

/-- Closed form of the enabled branch of the orbit reducer. -/
theorem orbit_reduce_enabled (scene_transform : Orbit.Transform)
    (controller : Orbit.OrbitCameraController) (events : List Orbit.ControlEvent)
    (transform : LookTransform) (h : controller.enabled = true) :
    Orbit.reduce scene_transform controller events transform =
      { eye := Orbit.claimTarget scene_transform transform.target events
          + Orbit.zoomProduct events
              * Vec3.norm (Orbit.claimTarget scene_transform transform.target events
                  - transform.eye)
              * (Orbit.claimOrbitAngles
                  (LookAngles.from_vector (-transform.look_direction)) events).unit_vector,
        target := Orbit.claimTarget scene_transform transform.target events } := by
  simp [Orbit.reduce, h, orbit_foldl_applyEvent, LookTransform.radius]

/-- C1: for the first-person reducer with an enabled controller, the look
angles start from the current look-direction and accumulate
add_yaw (-delta.x) then add_pitch (-delta.y) per Rotate event, every
TranslateEye delta is added directly to the eye, and the final target is
recomputed as eye + radius * unit_vector with the radius being the
eye-to-target distance at recompute time. -/
theorem fps_control_follows_claim (controller : Fps3d.Fps3dCameraController)
    (events : List Fps3d.ControlEvent) (transform : LookTransform)
    (h : controller.enabled = true) :
    Fps3d.reduce controller events transform =
      { eye := Fps3d.claimEye transform.eye events,
        target := Fps3d.claimEye transform.eye events
          + Vec3.norm (transform.target - Fps3d.claimEye transform.eye events)
            * (Fps3d.claimAngles (LookAngles.from_vector transform.look_direction)
                events).unit_vector } :=
  fps_reduce_enabled controller events transform h

/-- Witness for C1 at a concrete controller, event list and pose. -/
theorem fps_control_follows_claim_witness :
    (⟨true, ⟨1, 1⟩, 1, 1⟩ : Fps3d.Fps3dCameraController).enabled = true ∧
    Fps3d.reduce ⟨true, ⟨1, 1⟩, 1, 1⟩
        [Fps3d.ControlEvent.TranslateEye ⟨1, 0, 0⟩, Fps3d.ControlEvent.Rotate ⟨2, 3⟩]
        ⟨⟨0, 0, 5⟩, ⟨0, 0, 0⟩⟩ =
      { eye := Fps3d.claimEye ⟨0, 0, 5⟩
            [Fps3d.ControlEvent.TranslateEye ⟨1, 0, 0⟩, Fps3d.ControlEvent.Rotate ⟨2, 3⟩],
        target := Fps3d.claimEye ⟨0, 0, 5⟩
            [Fps3d.ControlEvent.TranslateEye ⟨1, 0, 0⟩, Fps3d.ControlEvent.Rotate ⟨2, 3⟩]
          + Vec3.norm ((⟨0, 0, 0⟩ : Vec3) - Fps3d.claimEye ⟨0, 0, 5⟩
              [Fps3d.ControlEvent.TranslateEye ⟨1, 0, 0⟩, Fps3d.ControlEvent.Rotate ⟨2, 3⟩])
            * (Fps3d.claimAngles
                (LookAngles.from_vector (LookTransform.look_direction ⟨⟨0, 0, 5⟩, ⟨0, 0, 0⟩⟩))
                [Fps3d.ControlEvent.TranslateEye ⟨1, 0, 0⟩,
                  Fps3d.ControlEvent.Rotate ⟨2, 3⟩]).unit_vector } :=
  ⟨rfl, fps_control_follows_claim _ _ _ rfl⟩

/-- C2: for the orbit reducer with an enabled controller, the look angles
start from the negated look-direction and accumulate add_yaw (-delta.x)
then add_pitch (+delta.y) per Orbit event, and the final eye is recomputed
as target + (accumulated radius scalar * radius) * unit_vector with the
target wherever the events placed it and the radius read at recompute
time. -/
theorem orbit_control_follows_claim (scene_transform : Orbit.Transform)
    (controller : Orbit.OrbitCameraController) (events : List Orbit.ControlEvent)
    (transform : LookTransform) (h : controller.enabled = true) :
    Orbit.reduce scene_transform controller events transform =
      { eye := Orbit.claimTarget scene_transform transform.target events
          + Orbit.zoomProduct events
              * Vec3.norm (Orbit.claimTarget scene_transform transform.target events
                  - transform.eye)
              * (Orbit.claimOrbitAngles
                  (LookAngles.from_vector (-transform.look_direction)) events).unit_vector,
        target := Orbit.claimTarget scene_transform transform.target events } :=
  orbit_reduce_enabled scene_transform controller events transform h

/-- Witness for C2 at a concrete scene, controller, event list and pose. -/
theorem orbit_control_follows_claim_witness :
    (⟨true, ⟨1, 1⟩, ⟨1, 1⟩, 1, 1⟩ : Orbit.OrbitCameraController).enabled = true ∧
    Orbit.reduce ⟨fun v => v⟩ ⟨true, ⟨1, 1⟩, ⟨1, 1⟩, 1, 1⟩
        [Orbit.ControlEvent.Orbit ⟨1, 2⟩, Orbit.ControlEvent.Zoom 2,
          Orbit.ControlEvent.TranslateTarget ⟨3, 4⟩]
        ⟨⟨0, 0, 5⟩, ⟨0, 0, 0⟩⟩ =
      { eye := Orbit.claimTarget ⟨fun v => v⟩ ⟨0, 0, 0⟩
            [Orbit.ControlEvent.Orbit ⟨1, 2⟩, Orbit.ControlEvent.Zoom 2,
              Orbit.ControlEvent.TranslateTarget ⟨3, 4⟩]
          + Orbit.zoomProduct
              [Orbit.ControlEvent.Orbit ⟨1, 2⟩, Orbit.ControlEvent.Zoom 2,
                Orbit.ControlEvent.TranslateTarget ⟨3, 4⟩]
              * Vec3.norm (Orbit.claimTarget ⟨fun v => v⟩ ⟨0, 0, 0⟩
                  [Orbit.ControlEvent.Orbit ⟨1, 2⟩, Orbit.ControlEvent.Zoom 2,
                    Orbit.ControlEvent.TranslateTarget ⟨3, 4⟩] - ⟨0, 0, 5⟩)
              * (Orbit.claimOrbitAngles
                  (LookAngles.from_vector
                    (-LookTransform.look_direction ⟨⟨0, 0, 5⟩, ⟨0, 0, 0⟩⟩))
                  [Orbit.ControlEvent.Orbit ⟨1, 2⟩, Orbit.ControlEvent.Zoom 2,
                    Orbit.ControlEvent.TranslateTarget ⟨3, 4⟩]).unit_vector,
        target := Orbit.claimTarget ⟨fun v => v⟩ ⟨0, 0, 0⟩
            [Orbit.ControlEvent.Orbit ⟨1, 2⟩, Orbit.ControlEvent.Zoom 2,
              Orbit.ControlEvent.TranslateTarget ⟨3, 4⟩] } :=
  ⟨rfl, orbit_control_follows_claim _ _ _ _ rfl⟩

/-- C3: zoom factors of one tick compose multiplicatively: the event
sequence Zoom a, Zoom b gives the orbit reducer the same resulting pose,
hence the same resulting radius and eye, as the single event Zoom (a*b). -/
theorem orbit_zoom_composes (scene_transform : Orbit.Transform)
    (controller : Orbit.OrbitCameraController) (a b : ℝ) (transform : LookTransform)
    (h : controller.enabled = true) :
    Orbit.reduce scene_transform controller
        [Orbit.ControlEvent.Zoom a, Orbit.ControlEvent.Zoom b] transform
      = Orbit.reduce scene_transform controller
        [Orbit.ControlEvent.Zoom (a * b)] transform := by
  rw [orbit_reduce_enabled _ _ _ _ h, orbit_reduce_enabled _ _ _ _ h]
  simp [Orbit.claimTarget, Orbit.claimOrbitAngles, Orbit.zoomProduct, mul_assoc]

/-- Witness for C3 at a concrete scene, controller, factors and pose. -/
theorem orbit_zoom_composes_witness :
    (⟨true, ⟨1, 1⟩, ⟨1, 1⟩, 1, 1⟩ : Orbit.OrbitCameraController).enabled = true ∧
    Orbit.reduce ⟨fun v => v⟩ ⟨true, ⟨1, 1⟩, ⟨1, 1⟩, 1, 1⟩
        [Orbit.ControlEvent.Zoom 2, Orbit.ControlEvent.Zoom 3] ⟨⟨0, 0, 5⟩, ⟨0, 0, 0⟩⟩
      = Orbit.reduce ⟨fun v => v⟩ ⟨true, ⟨1, 1⟩, ⟨1, 1⟩, 1, 1⟩
        [Orbit.ControlEvent.Zoom (2 * 3)] ⟨⟨0, 0, 5⟩, ⟨0, 0, 0⟩⟩ :=
  ⟨rfl, orbit_zoom_composes _ _ 2 3 _ rfl⟩

/-- C4: a disabled controller freezes the pose for both reducers: for every
event sequence the controlled LookTransform comes back unchanged. -/
theorem disabled_reducers_leave_pose_unchanged
    (fcontroller : Fps3d.Fps3dCameraController) (fevents : List Fps3d.ControlEvent)
    (ftransform : LookTransform) (scene_transform : Orbit.Transform)
    (ocontroller : Orbit.OrbitCameraController) (oevents : List Orbit.ControlEvent)
    (otransform : LookTransform)
    (hf : fcontroller.enabled = false) (ho : ocontroller.enabled = false) :
    Fps3d.reduce fcontroller fevents ftransform = ftransform
      ∧ Orbit.reduce scene_transform ocontroller oevents otransform = otransform := by
  constructor
  · simp [Fps3d.reduce, hf]
  · simp [Orbit.reduce, ho]

/-- Witness for C4 at concrete disabled controllers and non-empty event
sequences. -/
theorem disabled_reducers_leave_pose_unchanged_witness :
    ((⟨false, ⟨1, 1⟩, 1, 1⟩ : Fps3d.Fps3dCameraController).enabled = false
      ∧ (⟨false, ⟨1, 1⟩, ⟨1, 1⟩, 1, 1⟩ : Orbit.OrbitCameraController).enabled = false)
    ∧ (Fps3d.reduce ⟨false, ⟨1, 1⟩, 1, 1⟩
          [Fps3d.ControlEvent.Rotate ⟨1, 2⟩, Fps3d.ControlEvent.TranslateEye ⟨1, 0, 0⟩]
          ⟨⟨0, 0, 5⟩, ⟨0, 0, 0⟩⟩ = ⟨⟨0, 0, 5⟩, ⟨0, 0, 0⟩⟩
        ∧ Orbit.reduce ⟨fun v => v⟩ ⟨false, ⟨1, 1⟩, ⟨1, 1⟩, 1, 1⟩
            [Orbit.ControlEvent.Zoom 2] ⟨⟨0, 0, 5⟩, ⟨0, 0, 0⟩⟩ = ⟨⟨0, 0, 5⟩, ⟨0, 0, 0⟩⟩) :=
  ⟨⟨rfl, rfl⟩, disabled_reducers_leave_pose_unchanged _ _ _ _ _ _ _ rfl rfl⟩

/-- C5: for the first-person reducer with an enabled controller, an event
sequence of Rotate events only leaves the derived radius unchanged. -/
theorem fps_rotations_preserve_radius (controller : Fps3d.Fps3dCameraController)
    (events : List Fps3d.ControlEvent) (transform : LookTransform)
    (he : controller.enabled = true)
    (hr : events.all Fps3d.ControlEvent.isRotate = true) :
    (Fps3d.reduce controller events transform).radius = transform.radius := by
  rw [fps_reduce_enabled controller events transform he,
      fps_claimEye_of_all_rotate events transform.eye hr]
  simp only [LookTransform.radius]
  rw [Vec3.add_sub_cancel_left, Vec3.norm_smul, LookAngles.norm_unit_vector, mul_one,
      abs_of_nonneg (Vec3.norm_nonneg _)]

/-- Witness for C5 at a concrete controller, rotation-only events and pose. -/
theorem fps_rotations_preserve_radius_witness :
    ((⟨true, ⟨1, 1⟩, 1, 1⟩ : Fps3d.Fps3dCameraController).enabled = true
      ∧ [Fps3d.ControlEvent.Rotate ⟨1, 2⟩,
          Fps3d.ControlEvent.Rotate ⟨3, 4⟩].all Fps3d.ControlEvent.isRotate = true)
    ∧ (Fps3d.reduce ⟨true, ⟨1, 1⟩, 1, 1⟩
          [Fps3d.ControlEvent.Rotate ⟨1, 2⟩, Fps3d.ControlEvent.Rotate ⟨3, 4⟩]
          ⟨⟨0, 0, 5⟩, ⟨0, 0, 0⟩⟩).radius
        = LookTransform.radius ⟨⟨0, 0, 5⟩, ⟨0, 0, 0⟩⟩ :=
  ⟨⟨rfl, rfl⟩, fps_rotations_preserve_radius _ _ _ rfl rfl⟩

/-- C6: a TranslateTarget event moves the target along the right and up
basis directions read from the scene transform rotation, scaled by delta,
and changes nothing else: stated on one loop iteration and on the enabled
reducer run over the single event. -/
theorem orbit_translate_target_moves_target_only (scene_transform : Orbit.Transform)
    (s : Orbit.ReduceState) (delta : Vec2) (controller : Orbit.OrbitCameraController)
    (transform : LookTransform) (h : controller.enabled = true) :
    Orbit.applyEvent scene_transform s (Orbit.ControlEvent.TranslateTarget delta)
      = { s with transform :=
            { s.transform with target :=
                s.transform.target + delta.x * Orbit.right_dir scene_transform
                  + delta.y * Orbit.up_dir scene_transform } }
    ∧ (Orbit.reduce scene_transform controller
          [Orbit.ControlEvent.TranslateTarget delta] transform).target
        = transform.target + delta.x * Orbit.right_dir scene_transform
            + delta.y * Orbit.up_dir scene_transform := by
  constructor
  · rfl
  · rw [orbit_reduce_enabled _ _ _ _ h]
    simp [Orbit.claimTarget]

/-- Witness for C6 at a concrete scene, state, delta, controller and pose. -/
theorem orbit_translate_target_moves_target_only_witness :
    (⟨true, ⟨1, 1⟩, ⟨1, 1⟩, 1, 1⟩ : Orbit.OrbitCameraController).enabled = true ∧
    (Orbit.applyEvent ⟨fun v => v⟩ ⟨⟨⟨0, 0, 5⟩, ⟨0, 0, 0⟩⟩, ⟨0, 0⟩, 1⟩
        (Orbit.ControlEvent.TranslateTarget ⟨3, 4⟩)
      = ⟨⟨⟨0, 0, 5⟩, (⟨0, 0, 0⟩ : Vec3) + (3 : ℝ) * Orbit.right_dir ⟨fun v => v⟩
            + (4 : ℝ) * Orbit.up_dir ⟨fun v => v⟩⟩, ⟨0, 0⟩, 1⟩
    ∧ (Orbit.reduce ⟨fun v => v⟩ ⟨true, ⟨1, 1⟩, ⟨1, 1⟩, 1, 1⟩
          [Orbit.ControlEvent.TranslateTarget ⟨3, 4⟩] ⟨⟨0, 0, 5⟩, ⟨0, 0, 0⟩⟩).target
        = (⟨0, 0, 0⟩ : Vec3) + (3 : ℝ) * Orbit.right_dir ⟨fun v => v⟩
            + (4 : ℝ) * Orbit.up_dir ⟨fun v => v⟩) :=
  ⟨rfl, orbit_translate_target_moves_target_only _ _ _ _ _ rfl⟩

/-- C7: one invocation of either control system mutates only the first rig
of the query and returns every later rig of that style untouched. -/
theorem reducers_mutate_only_first_rig (fevents : List Fps3d.ControlEvent)
    (fcontroller : Fps3d.Fps3dCameraController) (ftransform : LookTransform)
    (frest : List (Fps3d.Fps3dCameraController × LookTransform))
    (oevents : List Orbit.ControlEvent) (ocontroller : Orbit.OrbitCameraController)
    (otransform : LookTransform) (oscene : Orbit.Transform)
    (orest : List (Orbit.OrbitCameraController × LookTransform × Orbit.Transform)) :
    Fps3d.control_system fevents ((fcontroller, ftransform) :: frest)
      = (fcontroller, Fps3d.reduce fcontroller fevents ftransform) :: frest
    ∧ Orbit.control_system oevents ((ocontroller, otransform, oscene) :: orest)
      = (ocontroller, Orbit.reduce oscene ocontroller oevents otransform, oscene) :: orest :=
  ⟨rfl, rfl⟩

/-- C8: both default input maps accumulate every mouse-motion sample of the
tick into one summed delta before scaling by sensitivity: the emitted
rotation and translation events carry sensitivity times the sum of all
sample deltas. -/
theorem input_maps_accumulate_motion (keyboard : Keyboard) (mouse_buttons : MouseButtons)
    (mouse_motion_events : List Vec2) (mouse_wheel_events : List ℝ)
    (fcontroller : Fps3d.Fps3dCameraController) (ftransform : LookTransform)
    (frest : List (Fps3d.Fps3dCameraController × LookTransform))
    (ocontroller : Orbit.OrbitCameraController)
    (orest : List Orbit.OrbitCameraController)
    (hf : fcontroller.enabled = true) (ho : ocontroller.enabled = true) :
    Fps3d.ControlEvent.Rotate
        (fcontroller.mouse_rotate_sensitivity * deltaSum mouse_motion_events)
      ∈ Fps3d.default_input_map keyboard mouse_motion_events
          ((fcontroller, ftransform) :: frest)
    ∧ (keyboard.lcontrol = true →
        Orbit.ControlEvent.Orbit
            (ocontroller.mouse_rotate_sensitivity * deltaSum mouse_motion_events)
          ∈ Orbit.default_input_map keyboard mouse_buttons mouse_wheel_events
              mouse_motion_events (ocontroller :: orest))
    ∧ (mouse_buttons.right = true →
        Orbit.ControlEvent.TranslateTarget
            (ocontroller.mouse_translate_sensitivity * deltaSum mouse_motion_events)
          ∈ Orbit.default_input_map keyboard mouse_buttons mouse_wheel_events
              mouse_motion_events (ocontroller :: orest)) := by
  refine ⟨?_, fun hl => ?_, fun hr => ?_⟩
  · simp [Fps3d.default_input_map, hf, cursorDelta_eq_deltaSum]
  · simp [Orbit.default_input_map, ho, hl, cursorDelta_eq_deltaSum]
  · simp [Orbit.default_input_map, ho, hr, cursorDelta_eq_deltaSum]

/-- Witness for C8 at concrete input state, samples and controllers. -/
theorem input_maps_accumulate_motion_witness :
    ((⟨true, ⟨1, 1⟩, 1, 1⟩ : Fps3d.Fps3dCameraController).enabled = true
      ∧ (⟨true, ⟨1, 1⟩, ⟨1, 1⟩, 1, 1⟩ : Orbit.OrbitCameraController).enabled = true)
    ∧ (Fps3d.ControlEvent.Rotate
          ((⟨true, ⟨1, 1⟩, 1, 1⟩ : Fps3d.Fps3dCameraController).mouse_rotate_sensitivity
            * deltaSum [⟨1, 2⟩, ⟨3, 4⟩])
        ∈ Fps3d.default_input_map ⟨true, true, true, true, true⟩ [⟨1, 2⟩, ⟨3, 4⟩]
            [(⟨true, ⟨1, 1⟩, 1, 1⟩, ⟨⟨0, 0, 5⟩, ⟨0, 0, 0⟩⟩)]
      ∧ ((⟨true, true, true, true, true⟩ : Keyboard).lcontrol = true →
          Orbit.ControlEvent.Orbit
              ((⟨true, ⟨1, 1⟩, ⟨1, 1⟩, 1, 1⟩ :
                  Orbit.OrbitCameraController).mouse_rotate_sensitivity
                * deltaSum [⟨1, 2⟩, ⟨3, 4⟩])
            ∈ Orbit.default_input_map ⟨true, true, true, true, true⟩ ⟨true⟩ []
                [⟨1, 2⟩, ⟨3, 4⟩] [⟨true, ⟨1, 1⟩, ⟨1, 1⟩, 1, 1⟩])
      ∧ ((⟨true⟩ : MouseButtons).right = true →
          Orbit.ControlEvent.TranslateTarget
              ((⟨true, ⟨1, 1⟩, ⟨1, 1⟩, 1, 1⟩ :
                  Orbit.OrbitCameraController).mouse_translate_sensitivity
                * deltaSum [⟨1, 2⟩, ⟨3, 4⟩])
            ∈ Orbit.default_input_map ⟨true, true, true, true, true⟩ ⟨true⟩ []
                [⟨1, 2⟩, ⟨3, 4⟩] [⟨true, ⟨1, 1⟩, ⟨1, 1⟩, 1, 1⟩])) :=
  ⟨⟨rfl, rfl⟩, input_maps_accumulate_motion _ _ _ _ _ _ _ _ _ rfl rfl⟩

/-- C9: the input-gating flag is two-valued, the startup system initializes
it to Enable, should_consume_input answers Yes exactly when the flag is not
Disable, and no amount of per-tick steps of this core moves a Disable flag
back to Enable (the gating function only reads the flag). -/
theorem input_gating_flag_semantics :
    (∀ b : InputBehavior, b = InputBehavior.Enable ∨ b = InputBehavior.Disable)
    ∧ set_default_input_behavior = InputBehavior.Enable
    ∧ (∀ b : InputBehavior,
        should_consume_input b = ShouldRun.Yes ↔ b ≠ InputBehavior.Disable)
    ∧ ∀ n : ℕ,
        (fun b => (input_behavior_tick b).1)^[n] InputBehavior.Disable
          = InputBehavior.Disable := by
  refine ⟨fun b => ?_, rfl, fun b => ?_, fun n => ?_⟩
  · cases b
    · exact Or.inl rfl
    · exact Or.inr rfl
  · cases b <;> simp [should_consume_input]
  · have h : (fun b : InputBehavior => (input_behavior_tick b).1) = id := rfl
    rw [h, Function.iterate_id, id]

/-- C10: with a present, enabled controller both default input maps emit a
rotation-class event unconditionally: the first-person map sends a Rotate
event even with no pointer motion (the zero vector), and the orbit map
always sends exactly one Zoom event, with scalar 1 when there were no
wheel samples. -/
theorem input_maps_emit_unconditional_events (keyboard : Keyboard)
    (mouse_buttons : MouseButtons) (mouse_wheel_events : List ℝ)
    (mouse_motion_events : List Vec2)
    (fcontroller : Fps3d.Fps3dCameraController) (ftransform : LookTransform)
    (frest : List (Fps3d.Fps3dCameraController × LookTransform))
    (ocontroller : Orbit.OrbitCameraController)
    (orest : List Orbit.OrbitCameraController)
    (hf : fcontroller.enabled = true) (ho : ocontroller.enabled = true) :
    Fps3d.ControlEvent.Rotate ⟨0, 0⟩
      ∈ Fps3d.default_input_map keyboard [] ((fcontroller, ftransform) :: frest)
    ∧ ((Orbit.default_input_map keyboard mouse_buttons mouse_wheel_events
          mouse_motion_events (ocontroller :: orest)).filter
            Orbit.ControlEvent.isZoom).length = 1
    ∧ Orbit.ControlEvent.Zoom 1
        ∈ Orbit.default_input_map keyboard mouse_buttons [] mouse_motion_events
            (ocontroller :: orest) := by
  refine ⟨?_, ?_, ?_⟩
  · simp [Fps3d.default_input_map, hf, cursorDelta]
  · cases hl : keyboard.lcontrol <;> cases hr : mouse_buttons.right <;>
      simp [Orbit.default_input_map, ho, hl, hr, Orbit.ControlEvent.isZoom]
  · cases hl : keyboard.lcontrol <;> cases hr : mouse_buttons.right <;>
      simp [Orbit.default_input_map, ho, hl, hr]

/-- Witness for C10 at concrete input state and controllers. -/
theorem input_maps_emit_unconditional_events_witness :
    ((⟨true, ⟨1, 1⟩, 1, 1⟩ : Fps3d.Fps3dCameraController).enabled = true
      ∧ (⟨true, ⟨1, 1⟩, ⟨1, 1⟩, 1, 1⟩ : Orbit.OrbitCameraController).enabled = true)
    ∧ (Fps3d.ControlEvent.Rotate ⟨0, 0⟩
        ∈ Fps3d.default_input_map ⟨false, false, false, false, false⟩ []
            [(⟨true, ⟨1, 1⟩, 1, 1⟩, ⟨⟨0, 0, 5⟩, ⟨0, 0, 0⟩⟩)]
      ∧ ((Orbit.default_input_map ⟨false, false, false, false, false⟩ ⟨false⟩ [2]
            [⟨1, 2⟩] [⟨true, ⟨1, 1⟩, ⟨1, 1⟩, 1, 1⟩]).filter
              Orbit.ControlEvent.isZoom).length = 1
      ∧ Orbit.ControlEvent.Zoom 1
          ∈ Orbit.default_input_map ⟨false, false, false, false, false⟩ ⟨false⟩ []
              [⟨1, 2⟩] [⟨true, ⟨1, 1⟩, ⟨1, 1⟩, 1, 1⟩]) :=
  ⟨⟨rfl, rfl⟩, input_maps_emit_unconditional_events _ _ [2] _ _ _ _ _ _ rfl rfl⟩

end

end SmoothBevyCameras
